import Mathlib

/-!
Shallow embedding of the Stripe SFCC B2C connector's payment handlers:

* `stripePaymentsHelper.js` — `generateCardsPaymentResponse`,
  `beforePaymentAuthorization`, `handleAPM`;
* the card-authorization hook script — `authorizeCreditCard`, `authorize`.

JavaScript values are modelled as follows: objects become structures,
possibly-absent fields become `Option`, strings stay `String`, JS `Number`
(a decimal monetary amount here) becomes `ℚ`, and a thrown exception
becomes the error branch of `Except`.  Platform and remote services that
are not part of this repository (`checkoutHelper`, `stripeService`,
`dw.util.Currency`, …) are passed in as oracle functions.  A scoped
`Transaction.wrap` block is recorded in a transaction log as the list of
writes it performed, so that atomicity-grouping claims can be stated.
-/

/-- The parsed remote error envelope `{error: {code, message}}` carried by
`e.callResult.errorMessage` on a remote-call failure.  `JSON.parse` is
modelled as already performed. -/
structure RemoteEnvelope where
  code : String
  message : String
deriving DecidableEq, Repr

/-- A thrown JavaScript error: its own `message`, plus the optional
`callResult` attached by the platform's service framework on remote
failures. -/
structure JsErr where
  message : String
  callResult : Option RemoteEnvelope
deriving DecidableEq, Repr

/-- JS truthiness of a possibly-null string attribute: `null`/`undefined`
and the empty string are falsy. -/
def truthyStr : Option String → Bool
  | none => false
  | some s => !s.isEmpty

/-- The `next_action` sub-object of a remote PaymentIntent. -/
structure NextAction where
  type : String
deriving DecidableEq, Repr

/-- A remote PaymentIntent resource, with the fields this code reads. -/
structure PaymentIntent where
  id : String
  status : String
  client_secret : String
  next_action : Option NextAction
  review : Bool
deriving DecidableEq, Repr

/-- The response payloads `beforePaymentAuthorization` can produce:
`{requires_action: true, payment_intent_client_secret}`, `{success: true}`,
`{error: 'Invalid PaymentIntent status'}`, and the two catch-block shapes
`{error: {code, message}}` and `{error: {message}}`. -/
inductive Payload where
  | requiresAction (payment_intent_client_secret : String)
  | success
  | invalidStatus
  | errorRemote (code : String) (message : String)
  | errorLocal (message : String)
deriving DecidableEq, Repr

/-- The TypeError raised by evaluating `intent.next_action.type` when
`next_action` is absent. -/
def nextActionTypeError : JsErr :=
  ⟨"Cannot read property 'type' of undefined", none⟩

/-- `generateCardsPaymentResponse(intent)`.  The JS condition
`intent.status === 'requires_action' && intent.next_action.type === 'use_stripe_sdk'`
short-circuits: `next_action.type` is only dereferenced when the status is
`'requires_action'`, and faults (TypeError) when `next_action` is absent. -/
def generateCardsPaymentResponse (intent : PaymentIntent) : Except JsErr Payload :=
  if intent.status = "requires_action" then
    match intent.next_action with
    | none => Except.error nextActionTypeError
    | some na =>
      if na.type = "use_stripe_sdk" then
        Except.ok (Payload.requiresAction intent.client_secret)
      else if intent.status = "succeeded" then
        Except.ok Payload.success
      else
        Except.ok Payload.invalidStatus
  else if intent.status = "succeeded" then
    Except.ok Payload.success
  else
    Except.ok Payload.invalidStatus

/-- A Stripe payment instrument attached to the basket, as returned by
`checkoutHelper.getStripePaymentInstrument`. -/
structure PaymentInstrument where
  paymentMethod : String
deriving DecidableEq, Repr

/-- The basket state this code reads and writes: the two custom attributes
and the Stripe payment instrument the (external) `checkoutHelper` lookup
would find on it. -/
structure Basket where
  stripePaymentIntentID : Option String
  stripeIsPaymentIntentInReview : Bool
  stripeInstrument : Option PaymentInstrument
deriving DecidableEq, Repr

/-- A single write to basket custom attributes, as performed inside a
`Transaction.wrap` block. -/
inductive BasketWrite where
  | setIntentID (id : String)
  | setReviewFlag
deriving DecidableEq, Repr

/-- Observable effects of one `beforePaymentAuthorization` run: which
intent ids were sent to `confirmPaymentIntent`, which instruments to
`createPaymentIntent`, and the log of scoped transactions (each entry is
the list of writes of one `Transaction.wrap`). -/
structure BPATrace where
  confirmCalls : List String
  createCalls : List PaymentInstrument
  txLog : List (List BasketWrite)
deriving DecidableEq, Repr

/-- An empty trace: no remote calls, no transactions. -/
def BPATrace.empty : BPATrace := ⟨[], [], []⟩

/-- Result of one `beforePaymentAuthorization` run: the returned payload
(`none` models the JS `undefined`), the final basket state, and the
effect trace. -/
structure BPAOut where
  payload : Option Payload
  basket : Option Basket
  trace : BPATrace
deriving DecidableEq, Repr

/-- The catch block of `beforePaymentAuthorization`: a remote error with a
`callResult` is unwrapped to `{error: {code, message}}` from the parsed
envelope, any other error to `{error: {message: e.message}}`. -/
def bpaCatchPayload (e : JsErr) : Payload :=
  match e.callResult with
  | some env => Payload.errorRemote env.code env.message
  | none => Payload.errorLocal e.message

/-- Code after the intent has been obtained in `beforePaymentAuthorization`:
the review-flag transaction, then `generateCardsPaymentResponse`; a fault
there is caught by the surrounding catch, with basket mutations kept. -/
def bpaAfterIntent (basket : Basket) (intent : PaymentIntent) (trace : BPATrace) : BPAOut :=
  let basket1 :=
    if intent.review then
      { basket with stripeIsPaymentIntentInReview := true }
    else basket
  let trace1 :=
    if intent.review then
      { trace with txLog := trace.txLog ++ [[BasketWrite.setReviewFlag]] }
    else trace
  match generateCardsPaymentResponse intent with
  | Except.ok payload => ⟨some payload, some basket1, trace1⟩
  | Except.error e => ⟨some (bpaCatchPayload e), some basket1, trace1⟩

/-- `beforePaymentAuthorization()`.  `confirm` and `create` are the
external `checkoutHelper.confirmPaymentIntent` / `createPaymentIntent`
remote calls; `basket0` is `BasketMgr.getCurrentBasket()`.  When no basket
exists the function body is skipped and the declared-but-unassigned
`responsePayload` (modelled `none`) is returned. -/
def beforePaymentAuthorization
    (confirm : String → Except JsErr PaymentIntent)
    (create : PaymentInstrument → Except JsErr PaymentIntent)
    (basket0 : Option Basket) : BPAOut :=
  match basket0 with
  | none => ⟨none, none, BPATrace.empty⟩
  | some basket =>
    match basket.stripeInstrument with
    | some pi =>
      if pi.paymentMethod = "CREDIT_CARD" then
        if truthyStr basket.stripePaymentIntentID then
          let id := basket.stripePaymentIntentID.getD ""
          let trace : BPATrace := ⟨[id], [], []⟩
          match confirm id with
          | Except.error e => ⟨some (bpaCatchPayload e), some basket, trace⟩
          | Except.ok intent => bpaAfterIntent basket intent trace
        else
          let trace : BPATrace := ⟨[], [pi], []⟩
          match create pi with
          | Except.error e => ⟨some (bpaCatchPayload e), some basket, trace⟩
          | Except.ok intent =>
            let basket1 := { basket with stripePaymentIntentID := some intent.id }
            let trace1 := { trace with txLog := [[BasketWrite.setIntentID intent.id]] }
            bpaAfterIntent basket1 intent trace1
      else
        ⟨some Payload.success, some basket, BPATrace.empty⟩
    | none => ⟨some Payload.success, some basket, BPATrace.empty⟩

/-- JS `Math.round`: rounds half towards positive infinity,
`Math.round(x) = floor(x + 0.5)`.  The decimal amount is modelled
exactly as a rational. -/
def jsRound (q : ℚ) : ℤ := ⌊q + 1 / 2⌋

/-- Minor-unit conversion of `authorizeCreditCard`:
`Math.round(amount.value * Math.pow(10, fractionDigits))`. -/
def minorUnits (value : ℚ) (fractionDigits : ℕ) : ℤ :=
  jsRound (value * 10 ^ fractionDigits)

/-- `paymentInstrument.paymentTransaction.amount`: a platform Money value
with availability flag, decimal value and currency code. -/
structure MoneyAmount where
  available : Bool
  value : ℚ
  currencyCode : String
deriving DecidableEq, Repr

/-- The billing address fields `authorizeCreditCard` reads; optional
fields are those it guards with truthiness checks. -/
structure Address where
  city : String
  countryCode : String
  address1 : String
  postalCode : String
  stateCode : Option String
  fullName : Option String
  phone : Option String
deriving DecidableEq, Repr

/-- The platform order payment status values this code touches. -/
inductive PayStatus where
  | notPaid
  | paid
deriving DecidableEq, Repr

/-- The order state `authorizeCreditCard` reads and writes. -/
structure JsOrder where
  billingAddress : Address
  customerEmail : Option String
  orderNo : String
  stripePaymentIntentID : Option String
  paymentStatus : PayStatus
deriving DecidableEq, Repr

/-- The order payment instrument fields the card hook reads. -/
structure OrderPaymentInstrument where
  amount : MoneyAmount
  creditCardNumber : String
  creditCardExpirationMonth : ℕ
  creditCardExpirationYear : ℕ
deriving DecidableEq, Repr

/-- The `billing_details` record sent to `stripe.paymentMethods.create`. -/
structure BillingDetails where
  city : String
  country : String
  line1 : String
  postal_code : String
  state : String
  email : Option String
  name : Option String
  phone : Option String
deriving DecidableEq, Repr

/-- Builds `billingDetails` from the order, mirroring the source: `state`
falls back to the empty string, and `email`/`name`/`phone` are attached
only when truthy. -/
def buildBillingDetails (order : JsOrder) : BillingDetails :=
  let address := order.billingAddress
  { city := address.city
    country := address.countryCode
    line1 := address.address1
    postal_code := address.postalCode
    state := match address.stateCode with | some s => s | none => ""
    email := if truthyStr order.customerEmail then order.customerEmail else none
    name := if truthyStr address.fullName then address.fullName else none
    phone := if truthyStr address.phone then address.phone else none }

/-- The request sent to `stripe.paymentMethods.create`. -/
structure PaymentMethodRequest where
  number : String
  exp_month : ℕ
  exp_year : ℕ
  cvc : String
  billing_details : BillingDetails
deriving DecidableEq, Repr

/-- The remote payment-method resource; only its `id` is read. -/
structure PaymentMethod where
  id : String
deriving DecidableEq, Repr

/-- The request sent to `stripe.paymentIntents.create`. -/
structure PaymentIntentRequest where
  amount : ℤ
  currency : String
  payment_method : String
  description : String
  metadata_order_id : String
  metadata_site_id : String
  confirm : Bool
  moto : Bool
deriving DecidableEq, Repr

/-- The status values of `dw.system.Status`. -/
inductive StatusCode where
  | OK
  | ERROR
deriving DecidableEq, Repr

/-- A `dw.system.Status` result: `new Status(Status.OK)` carries no
message, `new Status(Status.ERROR, m)` carries `m`. -/
structure DwStatus where
  code : StatusCode
  message : Option String
deriving DecidableEq, Repr

/-- A single write to the order inside `Transaction.wrap`. -/
inductive OrderWrite where
  | setStripePaymentIntentID (id : String)
  | setPaymentStatusPaid
deriving DecidableEq, Repr

/-- Result of one `authorizeCreditCard` run: the returned status, the
final order state, the scoped-transaction log, and the payment-intent
request actually sent (if the run got that far). -/
structure ACCOut where
  status : DwStatus
  order : JsOrder
  txLog : List (List OrderWrite)
  piRequest : Option PaymentIntentRequest
deriving DecidableEq, Repr

/-- The catch block of `authorizeCreditCard`: surface the envelope's
`error.message` when the error carries a `callResult`, else the error's
own message; the order is left as it was, no transaction ran. -/
def accCatch (order : JsOrder) (piReq : Option PaymentIntentRequest) (e : JsErr) : ACCOut :=
  let m :=
    match e.callResult with
    | some env => env.message
    | none => e.message
  ⟨⟨StatusCode.ERROR, some m⟩, order, [], piReq⟩

/-- The request `authorizeCreditCard` sends to
`stripe.paymentMethods.create`: the raw card fields plus the billing
details. -/
def pmRequestOf (order : JsOrder) (paymentInstrument : OrderPaymentInstrument)
    (cvc : String) : PaymentMethodRequest :=
  ⟨paymentInstrument.creditCardNumber, paymentInstrument.creditCardExpirationMonth,
    paymentInstrument.creditCardExpirationYear, cvc, buildBillingDetails order⟩

/-- The request `authorizeCreditCard` sends to
`stripe.paymentIntents.create`: the minor-unit amount, lower-cased
currency, payment-method id, MOTO description and metadata, confirmed
immediately with the MOTO card option. -/
def piRequestOf (getFractionDigits : String → ℕ) (siteID : String)
    (order : JsOrder) (paymentInstrument : OrderPaymentInstrument)
    (pmId : String) : PaymentIntentRequest :=
  ⟨minorUnits paymentInstrument.amount.value
      (getFractionDigits paymentInstrument.amount.currencyCode),
    paymentInstrument.amount.currencyCode.toLower, pmId,
    "MOTO transacion", order.orderNo, siteID, true, true⟩

/-- `authorizeCreditCard(order, paymentInstrument, cvc)`.
`getFractionDigits` is `dw.util.Currency.getCurrency(...).getDefaultFractionDigits()`,
`siteID` is `dw.system.Site.getCurrent().getID()`, and `pmCreate` /
`piCreate` are the remote `stripe.paymentMethods.create` /
`stripe.paymentIntents.create` calls. -/
def authorizeCreditCard
    (getFractionDigits : String → ℕ) (siteID : String)
    (pmCreate : PaymentMethodRequest → Except JsErr PaymentMethod)
    (piCreate : PaymentIntentRequest → Except JsErr PaymentIntent)
    (order : JsOrder) (paymentInstrument : OrderPaymentInstrument)
    (cvc : String) : ACCOut :=
  if !paymentInstrument.amount.available then
    accCatch order none ⟨"paymentInstrument.amount not available", none⟩
  else
    match pmCreate (pmRequestOf order paymentInstrument cvc) with
    | Except.error e => accCatch order none e
    | Except.ok paymentMethod =>
      let piReq := piRequestOf getFractionDigits siteID order paymentInstrument
        paymentMethod.id
      match piCreate piReq with
      | Except.error e => accCatch order (some piReq) e
      | Except.ok paymentIntent =>
        if paymentIntent.status = "succeeded" then
          ⟨⟨StatusCode.OK, none⟩,
            { order with
                stripePaymentIntentID := some paymentIntent.id
                paymentStatus := PayStatus.paid },
            [[OrderWrite.setStripePaymentIntentID paymentIntent.id,
              OrderWrite.setPaymentStatusPaid]],
            some piReq⟩
        else
          accCatch order (some piReq)
            ⟨"Transaction auhtorization was not successful", none⟩

/-- The `authorize` hook for non-card payment methods: a fixed
"not supported" failure. -/
def authorize (_order : JsOrder) (_paymentInstrument : OrderPaymentInstrument) : DwStatus :=
  ⟨StatusCode.ERROR, some "Not supported"⟩

/-- A remote Source resource, with the fields `handleAPM` reads. -/
structure Source where
  client_secret : String
  status : String
deriving DecidableEq, Repr

/-- A redirect URL built by `URLUtils.url(action, name1, value1, ...)`. -/
structure RedirectUrl where
  action : String
  params : List (String × String)
deriving DecidableEq, Repr

/-- The error redirect of `handleAPM`'s catch block: back to the payment
step, with the error message as the `apm_return_error` parameter. -/
def apmErrorUrl (sfra : Bool) (message : String) : RedirectUrl :=
  if sfra then
    ⟨"Checkout-Begin", [("stage", "payment"), ("apm_return_error", message)]⟩
  else
    ⟨"COBilling-Start", [("apm_return_error", message)]⟩

/-- The success redirect of `handleAPM`: the order-summary / place-order
step. -/
def apmSuccessUrl (sfra : Bool) : RedirectUrl :=
  if sfra then
    ⟨"Checkout-Begin", [("stage", "placeOrder")]⟩
  else
    ⟨"COSummary-Start", []⟩

/-- `handleAPM(sfra)`.  `retrieve` is the remote
`stripeService.sources.retrieve`; `sourceId` and `sourceClientSecret`
come from the request parameter map.  Thrown errors (remote failure,
client-secret mismatch, disallowed source status) reach the catch, which
builds the error redirect from `e.message`.  Every path assigns a URL, so
the initial empty string never escapes. -/
def handleAPM
    (retrieve : String → Except JsErr Source)
    (sourceId sourceClientSecret : String) (sfra : Bool) : RedirectUrl :=
  match retrieve sourceId with
  | Except.error e => apmErrorUrl sfra e.message
  | Except.ok source =>
    if source.client_secret ≠ sourceClientSecret then
      apmErrorUrl sfra "Source client secret mismatch"
    else if !(["chargeable", "pending"].contains source.status) then
      apmErrorUrl sfra "Source not authorized."
    else
      apmSuccessUrl sfra

/-- Applies one order write. -/
def applyOrderWrite (o : JsOrder) : OrderWrite → JsOrder
  | OrderWrite.setStripePaymentIntentID id => { o with stripePaymentIntentID := some id }
  | OrderWrite.setPaymentStatusPaid => { o with paymentStatus := PayStatus.paid }

/-- Applies one scoped transaction: all of its writes, in order
(atomicity means they are never applied separately). -/
def applyTx (o : JsOrder) (tx : List OrderWrite) : JsOrder :=
  tx.foldl applyOrderWrite o

/-- Claim C1: `generateCardsPaymentResponse` returns the
requires-action payload (with the intent's client secret) when the status
is `requires_action` and `next_action.type` is `use_stripe_sdk`; returns
`{success: true}` when the status is `succeeded`; and returns
`{error: 'Invalid PaymentIntent status'}` for every other status value. -/
theorem generateCardsPaymentResponse_spec (intent : PaymentIntent) :
    (∀ na, intent.status = "requires_action" → intent.next_action = some na →
      na.type = "use_stripe_sdk" →
      generateCardsPaymentResponse intent =
        Except.ok (Payload.requiresAction intent.client_secret)) ∧
    (intent.status = "succeeded" →
      generateCardsPaymentResponse intent = Except.ok Payload.success) ∧
    (intent.status ≠ "requires_action" → intent.status ≠ "succeeded" →
      generateCardsPaymentResponse intent = Except.ok Payload.invalidStatus) := by
  refine ⟨?_, ?_, ?_⟩
  · intro na hs hn ht
    simp [generateCardsPaymentResponse, hs, hn, ht]
  · intro hs
    simp [generateCardsPaymentResponse, hs]
  · intro h1 h2
    simp [generateCardsPaymentResponse, h1, h2]

/-- Witness for C1: the three branches at concrete intents. -/
theorem generateCardsPaymentResponse_spec_witness :
    generateCardsPaymentResponse
        ⟨"pi_1", "requires_action", "cs_1", some ⟨"use_stripe_sdk"⟩, false⟩ =
      Except.ok (Payload.requiresAction "cs_1") ∧
    generateCardsPaymentResponse ⟨"pi_2", "succeeded", "cs_2", none, false⟩ =
      Except.ok Payload.success ∧
    generateCardsPaymentResponse ⟨"pi_3", "processing", "cs_3", none, false⟩ =
      Except.ok Payload.invalidStatus :=
  ⟨(generateCardsPaymentResponse_spec _).1 ⟨"use_stripe_sdk"⟩ rfl rfl rfl,
   (generateCardsPaymentResponse_spec _).2.1 rfl,
   (generateCardsPaymentResponse_spec _).2.2 (by decide) (by decide)⟩

/-- Claim C10: with status `requires_action` and no `next_action` field,
`generateCardsPaymentResponse` faults on the `intent.next_action.type`
dereference instead of returning any payload (in particular not the
`{error: 'Invalid PaymentIntent status'}` payload). -/
theorem generateCardsPaymentResponse_next_action_fault (intent : PaymentIntent)
    (hs : intent.status = "requires_action") (hn : intent.next_action = none) :
    generateCardsPaymentResponse intent = Except.error nextActionTypeError ∧
    ∀ p, generateCardsPaymentResponse intent ≠ Except.ok p := by
  refine ⟨by simp [generateCardsPaymentResponse, hs, hn], ?_⟩
  intro p
  simp [generateCardsPaymentResponse, hs, hn]

/-- Witness for C10: a concrete `requires_action` intent lacking
`next_action`. -/
theorem generateCardsPaymentResponse_next_action_fault_witness :
    generateCardsPaymentResponse ⟨"pi_4", "requires_action", "cs_4", none, false⟩ =
      Except.error nextActionTypeError ∧
    ∀ p, generateCardsPaymentResponse ⟨"pi_4", "requires_action", "cs_4", none, false⟩ ≠
      Except.ok p :=
  generateCardsPaymentResponse_next_action_fault _ rfl rfl

/-- Claim C8: the non-card authorization hook always returns an ERROR
status with message "Not supported", never success. -/
theorem authorize_not_supported (order : JsOrder) (paymentInstrument : OrderPaymentInstrument) :
    authorize order paymentInstrument = ⟨StatusCode.ERROR, some "Not supported"⟩ ∧
    (authorize order paymentInstrument).code ≠ StatusCode.OK :=
  ⟨rfl, by simp [authorize]⟩

/-- An error redirect is never the success redirect: they differ in
action or in the `stage` parameter, whatever the message. -/
theorem apmErrorUrl_ne_success (sfra : Bool) (message : String) :
    apmErrorUrl sfra message ≠ apmSuccessUrl sfra := by
  cases sfra <;> simp [apmErrorUrl, apmSuccessUrl]

/-- Claim C5: `handleAPM` returns the success redirect only when the
retrieved source's client secret equals the supplied one and its status
is `chargeable` or `pending`; on a secret mismatch, or on any other
status, it returns the payment-step redirect carrying the error message
as the `apm_return_error` parameter and never the success URL. -/
theorem handleAPM_gate
    (retrieve : String → Except JsErr Source)
    (sourceId sourceClientSecret : String) (sfra : Bool) (source : Source)
    (hret : retrieve sourceId = Except.ok source) :
    (source.client_secret = sourceClientSecret →
      (source.status = "chargeable" ∨ source.status = "pending") →
      handleAPM retrieve sourceId sourceClientSecret sfra = apmSuccessUrl sfra) ∧
    (source.client_secret ≠ sourceClientSecret →
      handleAPM retrieve sourceId sourceClientSecret sfra =
        apmErrorUrl sfra "Source client secret mismatch" ∧
      handleAPM retrieve sourceId sourceClientSecret sfra ≠ apmSuccessUrl sfra) ∧
    (source.status ≠ "chargeable" → source.status ≠ "pending" →
      handleAPM retrieve sourceId sourceClientSecret sfra =
        apmErrorUrl sfra "Source client secret mismatch" ∨
      handleAPM retrieve sourceId sourceClientSecret sfra =
        apmErrorUrl sfra "Source not authorized.") ∧
    (handleAPM retrieve sourceId sourceClientSecret sfra = apmSuccessUrl sfra →
      source.client_secret = sourceClientSecret ∧
      (source.status = "chargeable" ∨ source.status = "pending")) := by
  refine ⟨?_, ?_, ?_, ?_⟩
  · intro hsec hst
    rcases hst with h | h <;> simp [handleAPM, hret, hsec, h]
  · intro hsec
    refine ⟨by simp [handleAPM, hret, hsec], ?_⟩
    simp [handleAPM, hret, hsec]
    exact apmErrorUrl_ne_success sfra _
  · intro h1 h2
    by_cases hsec : source.client_secret = sourceClientSecret
    · right; simp [handleAPM, hret, hsec, h1, h2]
    · left; simp [handleAPM, hret, hsec]
  · intro hout
    by_cases hsec : source.client_secret = sourceClientSecret
    · refine ⟨hsec, ?_⟩
      by_cases h1 : source.status = "chargeable"
      · exact Or.inl h1
      · by_cases h2 : source.status = "pending"
        · exact Or.inr h2
        · exfalso
          rw [handleAPM, hret] at hout
          simp [hsec, h1, h2] at hout
          exact apmErrorUrl_ne_success sfra _ hout
    · exfalso
      rw [handleAPM, hret] at hout
      simp [hsec] at hout
      exact apmErrorUrl_ne_success sfra _ hout

/-- Witness for C5: a concrete chargeable source whose secret matches. -/
theorem handleAPM_gate_witness :
    (fun _ => Except.ok (⟨"cs_src", "chargeable"⟩ : Source) :
        String → Except JsErr Source) "src_1" =
      Except.ok (⟨"cs_src", "chargeable"⟩ : Source) ∧
    handleAPM (fun _ => Except.ok (⟨"cs_src", "chargeable"⟩ : Source))
        "src_1" "cs_src" true = apmSuccessUrl true :=
  ⟨rfl,
   (handleAPM_gate (fun _ => Except.ok (⟨"cs_src", "chargeable"⟩ : Source))
      "src_1" "cs_src" true ⟨"cs_src", "chargeable"⟩ rfl).1 rfl (Or.inl rfl)⟩

/-- The trace produced by `bpaAfterIntent`: the incoming trace, plus one
review-flag transaction when the intent is in review. -/
theorem bpaAfterIntent_trace_eq (basket : Basket) (intent : PaymentIntent) (trace : BPATrace) :
    (bpaAfterIntent basket intent trace).trace =
      if intent.review then
        { trace with txLog := trace.txLog ++ [[BasketWrite.setReviewFlag]] }
      else trace := by
  unfold bpaAfterIntent
  cases hgen : generateCardsPaymentResponse intent <;> simp [hgen]

/-- The basket produced by `bpaAfterIntent`: the incoming basket, with
only the review flag possibly set. -/
theorem bpaAfterIntent_basket_eq (basket : Basket) (intent : PaymentIntent) (trace : BPATrace) :
    (bpaAfterIntent basket intent trace).basket =
      some (if intent.review then
        { basket with stripeIsPaymentIntentInReview := true }
      else basket) := by
  unfold bpaAfterIntent
  cases hgen : generateCardsPaymentResponse intent <;> simp [hgen]

/-- `bpaAfterIntent` always produces some payload. -/
theorem bpaAfterIntent_payload (basket : Basket) (intent : PaymentIntent) (trace : BPATrace) :
    ((bpaAfterIntent basket intent trace).payload).isSome := by
  unfold bpaAfterIntent
  cases hgen : generateCardsPaymentResponse intent <;> simp [hgen]

/-- A non-empty stored identifier is truthy in JS. -/
theorem truthyStr_some (s : String) (h : s ≠ "") : truthyStr (some s) = true := by
  cases hse : s.isEmpty with
  | false => simp [truthyStr, hse]
  | true => exact absurd ((String.isEmpty_iff s).mp hse) h

/-- Claim C2: for a basket holding a Stripe CREDIT_CARD instrument, when
`stripePaymentIntentID` is already set `beforePaymentAuthorization`
confirms that intent and creates none (and no intent-id write occurs);
when it is unset, it creates a new intent and persists its id onto the
basket in a scoped transaction. -/
theorem beforePaymentAuthorization_idempotent_intent
    (confirm : String → Except JsErr PaymentIntent)
    (create : PaymentInstrument → Except JsErr PaymentIntent)
    (basket : Basket) (pi : PaymentInstrument)
    (hpi : basket.stripeInstrument = some pi)
    (hcc : pi.paymentMethod = "CREDIT_CARD") :
    (∀ id, basket.stripePaymentIntentID = some id → id ≠ "" →
      (beforePaymentAuthorization confirm create (some basket)).trace.confirmCalls = [id] ∧
      (beforePaymentAuthorization confirm create (some basket)).trace.createCalls = [] ∧
      ∀ tx ∈ (beforePaymentAuthorization confirm create (some basket)).trace.txLog,
        ∀ s, BasketWrite.setIntentID s ∉ tx) ∧
    (∀ intent, basket.stripePaymentIntentID = none → create pi = Except.ok intent →
      (beforePaymentAuthorization confirm create (some basket)).trace.createCalls = [pi] ∧
      (beforePaymentAuthorization confirm create (some basket)).trace.confirmCalls = [] ∧
      [BasketWrite.setIntentID intent.id] ∈
        (beforePaymentAuthorization confirm create (some basket)).trace.txLog ∧
      ∃ basket1,
        (beforePaymentAuthorization confirm create (some basket)).basket = some basket1 ∧
        basket1.stripePaymentIntentID = some intent.id) := by
  constructor
  · intro id hid hne
    have ht := truthyStr_some id hne
    cases hc : confirm id with
    | error e => simp [beforePaymentAuthorization, hpi, hcc, hid, ht, hc]
    | ok intent =>
      cases hrev : intent.review <;>
        simp [beforePaymentAuthorization, hpi, hcc, hid, ht, hc,
          bpaAfterIntent_trace_eq, hrev]
  · intro intent hid hcreate
    cases hrev : intent.review <;>
      simp [beforePaymentAuthorization, hpi, hcc, hid, hcreate, truthyStr,
        bpaAfterIntent_trace_eq, bpaAfterIntent_basket_eq, hrev]

/-- Witness for C2: both branches at concrete baskets and oracles. -/
theorem beforePaymentAuthorization_idempotent_intent_witness :
    ((⟨some "pi_old", false, some ⟨"CREDIT_CARD"⟩⟩ : Basket).stripeInstrument =
        some ⟨"CREDIT_CARD"⟩ ∧
      (beforePaymentAuthorization
          (fun _ => Except.ok ⟨"pi_old", "succeeded", "cs", none, false⟩)
          (fun _ => Except.ok ⟨"pi_new", "succeeded", "cs", none, false⟩)
          (some ⟨some "pi_old", false, some ⟨"CREDIT_CARD"⟩⟩)).trace.confirmCalls =
        ["pi_old"]) ∧
    ((⟨none, false, some ⟨"CREDIT_CARD"⟩⟩ : Basket).stripePaymentIntentID = none ∧
      (beforePaymentAuthorization
          (fun _ => Except.ok ⟨"pi_old", "succeeded", "cs", none, false⟩)
          (fun _ => Except.ok ⟨"pi_new", "succeeded", "cs", none, false⟩)
          (some ⟨none, false, some ⟨"CREDIT_CARD"⟩⟩)).trace.createCalls =
        [⟨"CREDIT_CARD"⟩]) :=
  ⟨⟨rfl,
    ((beforePaymentAuthorization_idempotent_intent
        (fun _ => Except.ok ⟨"pi_old", "succeeded", "cs", none, false⟩)
        (fun _ => Except.ok ⟨"pi_new", "succeeded", "cs", none, false⟩)
        ⟨some "pi_old", false, some ⟨"CREDIT_CARD"⟩⟩ ⟨"CREDIT_CARD"⟩ rfl rfl).1
      "pi_old" rfl (by decide)).1⟩,
   ⟨rfl,
    ((beforePaymentAuthorization_idempotent_intent
        (fun _ => Except.ok ⟨"pi_old", "succeeded", "cs", none, false⟩)
        (fun _ => Except.ok ⟨"pi_new", "succeeded", "cs", none, false⟩)
        ⟨none, false, some ⟨"CREDIT_CARD"⟩⟩ ⟨"CREDIT_CARD"⟩ rfl rfl).2
      ⟨"pi_new", "succeeded", "cs", none, false⟩ rfl rfl).1⟩⟩

/-- Counterexample to C7 as stated: with no active basket,
`beforePaymentAuthorization` does not return the generic success payload
`{success: true}` — the body is skipped and the unassigned
`responsePayload` (JS `undefined`) is returned. -/
theorem beforePaymentAuthorization_noBasket_not_success :
    (beforePaymentAuthorization (fun _ => Except.error ⟨"err", none⟩)
        (fun _ => Except.error ⟨"err", none⟩) none).payload ≠
      some Payload.success := by
  simp [beforePaymentAuthorization, BPATrace.empty]

/-- Claim C7 (amended): when no active basket exists,
`beforePaymentAuthorization` performs no remote call and no mutation and
returns `undefined` (no payload); whenever a basket exists it returns a
payload — and in no case does an exception escape (the embedding is a
total function). -/
theorem beforePaymentAuthorization_noBasket
    (confirm : String → Except JsErr PaymentIntent)
    (create : PaymentInstrument → Except JsErr PaymentIntent) :
    beforePaymentAuthorization confirm create none =
      ⟨none, none, BPATrace.empty⟩ ∧
    ∀ basket,
      ((beforePaymentAuthorization confirm create (some basket)).payload).isSome := by
  refine ⟨rfl, ?_⟩
  intro basket
  cases hpi : basket.stripeInstrument with
  | none => simp [beforePaymentAuthorization, hpi]
  | some pi =>
    by_cases hcc : pi.paymentMethod = "CREDIT_CARD"
    · cases ht : truthyStr basket.stripePaymentIntentID with
      | true =>
        cases hc : confirm (basket.stripePaymentIntentID.getD "") with
        | error e => simp [beforePaymentAuthorization, hpi, hcc, ht, hc]
        | ok intent =>
          simp [beforePaymentAuthorization, hpi, hcc, ht, hc, bpaAfterIntent_payload]
      | false =>
        cases hc : create pi with
        | error e => simp [beforePaymentAuthorization, hpi, hcc, ht, hc]
        | ok intent =>
          simp [beforePaymentAuthorization, hpi, hcc, ht, hc, bpaAfterIntent_payload]
    · simp [beforePaymentAuthorization, hpi, hcc]

/-- Claim C4: when the remote intent status is `succeeded`,
`authorizeCreditCard` performs both mutations — persisting the intent id
onto the order and setting the payment status to paid — inside one single
scoped transaction, and the final order is that transaction applied to
the initial order (both writes take effect together). -/
theorem authorizeCreditCard_succeeded_atomic
    (getFractionDigits : String → ℕ) (siteID : String)
    (pmCreate : PaymentMethodRequest → Except JsErr PaymentMethod)
    (piCreate : PaymentIntentRequest → Except JsErr PaymentIntent)
    (order : JsOrder) (paymentInstrument : OrderPaymentInstrument) (cvc : String)
    (pm : PaymentMethod) (intent : PaymentIntent)
    (hAvail : paymentInstrument.amount.available = true)
    (hpm : ∀ r, pmCreate r = Except.ok pm)
    (hpi : ∀ r, piCreate r = Except.ok intent)
    (hst : intent.status = "succeeded") :
    (authorizeCreditCard getFractionDigits siteID pmCreate piCreate order
        paymentInstrument cvc).txLog =
      [[OrderWrite.setStripePaymentIntentID intent.id,
        OrderWrite.setPaymentStatusPaid]] ∧
    (authorizeCreditCard getFractionDigits siteID pmCreate piCreate order
        paymentInstrument cvc).order =
      applyTx order [OrderWrite.setStripePaymentIntentID intent.id,
        OrderWrite.setPaymentStatusPaid] ∧
    (authorizeCreditCard getFractionDigits siteID pmCreate piCreate order
        paymentInstrument cvc).status = ⟨StatusCode.OK, none⟩ := by
  refine ⟨?_, ?_, ?_⟩ <;>
    simp [authorizeCreditCard, hAvail, hpm, hpi, hst, applyTx, applyOrderWrite]

/-- Witness for C4: a concrete succeeded authorization. -/
theorem authorizeCreditCard_succeeded_atomic_witness :
    ((⟨⟨true, 1999 / 100, "USD"⟩, "4111111111111111", 1, 2030⟩ :
        OrderPaymentInstrument).amount.available = true ∧
      (∀ r, (fun _ => Except.ok (⟨"pm_1"⟩ : PaymentMethod) :
          PaymentMethodRequest → Except JsErr PaymentMethod) r =
        Except.ok (⟨"pm_1"⟩ : PaymentMethod)) ∧
      (∀ r, (fun _ => Except.ok (⟨"pi_9", "succeeded", "cs", none, false⟩ :
            PaymentIntent) :
          PaymentIntentRequest → Except JsErr PaymentIntent) r =
        Except.ok (⟨"pi_9", "succeeded", "cs", none, false⟩ : PaymentIntent))) ∧
    (authorizeCreditCard (fun _ => 2) "site_1"
        (fun _ => Except.ok (⟨"pm_1"⟩ : PaymentMethod))
        (fun _ => Except.ok (⟨"pi_9", "succeeded", "cs", none, false⟩ : PaymentIntent))
        ⟨⟨"c", "US", "l1", "94107", none, none, none⟩, none, "o_1", none, PayStatus.notPaid⟩
        ⟨⟨true, 1999 / 100, "USD"⟩, "4111111111111111", 1, 2030⟩ "123").txLog =
      [[OrderWrite.setStripePaymentIntentID "pi_9",
        OrderWrite.setPaymentStatusPaid]] :=
  ⟨⟨rfl, fun _ => rfl, fun _ => rfl⟩,
   (authorizeCreditCard_succeeded_atomic (fun _ => 2) "site_1"
      (fun _ => Except.ok (⟨"pm_1"⟩ : PaymentMethod))
      (fun _ => Except.ok (⟨"pi_9", "succeeded", "cs", none, false⟩ : PaymentIntent))
      ⟨⟨"c", "US", "l1", "94107", none, none, none⟩, none, "o_1", none, PayStatus.notPaid⟩
      ⟨⟨true, 1999 / 100, "USD"⟩, "4111111111111111", 1, 2030⟩ "123"
      ⟨"pm_1"⟩ ⟨"pi_9", "succeeded", "cs", none, false⟩
      rfl (fun _ => rfl) (fun _ => rfl) rfl).1⟩

/-- Claim C9: whenever `authorizeCreditCard` returns a failure status —
any thrown error or any remote status other than `succeeded` — the order
is left unchanged and no transaction ran. -/
theorem authorizeCreditCard_failure_frame
    (getFractionDigits : String → ℕ) (siteID : String)
    (pmCreate : PaymentMethodRequest → Except JsErr PaymentMethod)
    (piCreate : PaymentIntentRequest → Except JsErr PaymentIntent)
    (order : JsOrder) (paymentInstrument : OrderPaymentInstrument) (cvc : String)
    (h : (authorizeCreditCard getFractionDigits siteID pmCreate piCreate order
        paymentInstrument cvc).status.code = StatusCode.ERROR) :
    (authorizeCreditCard getFractionDigits siteID pmCreate piCreate order
        paymentInstrument cvc).order = order ∧
    (authorizeCreditCard getFractionDigits siteID pmCreate piCreate order
        paymentInstrument cvc).txLog = [] := by
  cases hav : paymentInstrument.amount.available with
  | false => simp [authorizeCreditCard, hav, accCatch]
  | true =>
    cases hpm : pmCreate (pmRequestOf order paymentInstrument cvc) with
    | error e => simp [authorizeCreditCard, hav, hpm, accCatch]
    | ok pm =>
      cases hpi2 : piCreate (piRequestOf getFractionDigits siteID order
          paymentInstrument pm.id) with
      | error e => simp [authorizeCreditCard, hav, hpm, hpi2, accCatch]
      | ok intent =>
        by_cases hst : intent.status = "succeeded"
        · exfalso
          simp [authorizeCreditCard, hav, hpm, hpi2, hst] at h
        · simp [authorizeCreditCard, hav, hpm, hpi2, hst, accCatch]

/-- Witness for C9: a concrete run failing on an unavailable amount. -/
theorem authorizeCreditCard_failure_frame_witness :
    (authorizeCreditCard (fun _ => 2) "site_1"
        (fun _ => Except.error ⟨"down", none⟩)
        (fun _ => Except.error ⟨"down", none⟩)
        ⟨⟨"c", "US", "l1", "94107", none, none, none⟩, none, "o_1", none, PayStatus.notPaid⟩
        ⟨⟨false, 0, "USD"⟩, "4111111111111111", 1, 2030⟩ "123").status.code =
      StatusCode.ERROR ∧
    (authorizeCreditCard (fun _ => 2) "site_1"
        (fun _ => Except.error ⟨"down", none⟩)
        (fun _ => Except.error ⟨"down", none⟩)
        ⟨⟨"c", "US", "l1", "94107", none, none, none⟩, none, "o_1", none, PayStatus.notPaid⟩
        ⟨⟨false, 0, "USD"⟩, "4111111111111111", 1, 2030⟩ "123").order =
      ⟨⟨"c", "US", "l1", "94107", none, none, none⟩, none, "o_1", none, PayStatus.notPaid⟩ :=
  ⟨rfl,
   (authorizeCreditCard_failure_frame (fun _ => 2) "site_1"
      (fun _ => Except.error ⟨"down", none⟩)
      (fun _ => Except.error ⟨"down", none⟩)
      ⟨⟨"c", "US", "l1", "94107", none, none, none⟩, none, "o_1", none, PayStatus.notPaid⟩
      ⟨⟨false, 0, "USD"⟩, "4111111111111111", 1, 2030⟩ "123" rfl).1⟩

/-- Claim C6: at both authorization boundaries (`authorizeCreditCard` and
`beforePaymentAuthorization`), a thrown error carrying a remote call
result surfaces the nested envelope's `error.message`; otherwise the
local error's own message is surfaced — and a failure result is returned
rather than the exception propagating. -/
theorem boundary_error_unwrapping
    (e : JsErr) (getFractionDigits : String → ℕ) (siteID : String)
    (piCreate : PaymentIntentRequest → Except JsErr PaymentIntent)
    (order : JsOrder) (paymentInstrument : OrderPaymentInstrument) (cvc : String)
    (create : PaymentInstrument → Except JsErr PaymentIntent)
    (basket : Basket) (pi : PaymentInstrument) (id : String)
    (hAvail : paymentInstrument.amount.available = true)
    (hbpi : basket.stripeInstrument = some pi)
    (hcc : pi.paymentMethod = "CREDIT_CARD")
    (hid : basket.stripePaymentIntentID = some id) (hne : id ≠ "") :
    (authorizeCreditCard getFractionDigits siteID (fun _ => Except.error e)
        piCreate order paymentInstrument cvc).status =
      ⟨StatusCode.ERROR,
        some (match e.callResult with
          | some env => env.message
          | none => e.message)⟩ ∧
    (beforePaymentAuthorization (fun _ => Except.error e) create
        (some basket)).payload =
      some (match e.callResult with
        | some env => Payload.errorRemote env.code env.message
        | none => Payload.errorLocal e.message) := by
  constructor
  · cases hcr : e.callResult <;>
      simp [authorizeCreditCard, hAvail, accCatch, hcr]
  · have ht := truthyStr_some id hne
    cases hcr : e.callResult <;>
      simp [beforePaymentAuthorization, hbpi, hcc, hid, ht, bpaCatchPayload, hcr]

/-- Witness for C6: a concrete remote-enveloped error at both
boundaries. -/
theorem boundary_error_unwrapping_witness :
    ((⟨⟨true, 5, "USD"⟩, "4111111111111111", 1, 2030⟩ :
        OrderPaymentInstrument).amount.available = true ∧
      (⟨some "pi_7", false, some ⟨"CREDIT_CARD"⟩⟩ : Basket).stripeInstrument =
        some ⟨"CREDIT_CARD"⟩) ∧
    (authorizeCreditCard (fun _ => 2) "site_1"
        (fun _ => Except.error ⟨"wire", some ⟨"card_declined", "Your card was declined."⟩⟩)
        (fun _ => Except.error ⟨"wire", none⟩)
        ⟨⟨"c", "US", "l1", "94107", none, none, none⟩, none, "o_1", none, PayStatus.notPaid⟩
        ⟨⟨true, 5, "USD"⟩, "4111111111111111", 1, 2030⟩ "123").status =
      ⟨StatusCode.ERROR, some "Your card was declined."⟩ ∧
    (beforePaymentAuthorization
        (fun _ => Except.error ⟨"wire", some ⟨"card_declined", "Your card was declined."⟩⟩)
        (fun _ => Except.error ⟨"wire", none⟩)
        (some ⟨some "pi_7", false, some ⟨"CREDIT_CARD"⟩⟩)).payload =
      some (Payload.errorRemote "card_declined" "Your card was declined.") :=
  ⟨⟨rfl, rfl⟩,
   boundary_error_unwrapping
     ⟨"wire", some ⟨"card_declined", "Your card was declined."⟩⟩
     (fun _ => 2) "site_1" (fun _ => Except.error ⟨"wire", none⟩)
     ⟨⟨"c", "US", "l1", "94107", none, none, none⟩, none, "o_1", none, PayStatus.notPaid⟩
     ⟨⟨true, 5, "USD"⟩, "4111111111111111", 1, 2030⟩ "123"
     (fun _ => Except.error ⟨"wire", none⟩)
     ⟨some "pi_7", false, some ⟨"CREDIT_CARD"⟩⟩ ⟨"CREDIT_CARD"⟩ "pi_7"
     rfl rfl rfl rfl (by decide)⟩

/-- Claim C3: `authorizeCreditCard` sends the processor the minor-unit
integer `round(amount * 10 ^ fractionDigits)` of the decimal amount, and
this conversion round-trips exactly for any amount representable with at
most `fractionDigits` decimals (in particular for zero-decimal and
two-decimal currencies). -/
theorem authorizeCreditCard_minor_units
    (getFractionDigits : String → ℕ) (siteID : String)
    (pmCreate : PaymentMethodRequest → Except JsErr PaymentMethod)
    (piCreate : PaymentIntentRequest → Except JsErr PaymentIntent)
    (order : JsOrder) (paymentInstrument : OrderPaymentInstrument) (cvc : String)
    (pm : PaymentMethod)
    (hAvail : paymentInstrument.amount.available = true)
    (hpm : ∀ r, pmCreate r = Except.ok pm) :
    ((authorizeCreditCard getFractionDigits siteID pmCreate piCreate order
        paymentInstrument cvc).piRequest =
      some (piRequestOf getFractionDigits siteID order paymentInstrument pm.id) ∧
     (piRequestOf getFractionDigits siteID order paymentInstrument pm.id).amount =
      jsRound (paymentInstrument.amount.value *
        10 ^ getFractionDigits paymentInstrument.amount.currencyCode)) ∧
    (∀ (value : ℚ) (d : ℕ) (n : ℤ), value * 10 ^ d = (n : ℚ) →
      minorUnits value d = n ∧ ((minorUnits value d : ℚ) / 10 ^ d = value)) := by
  refine ⟨⟨?_, by simp [piRequestOf, minorUnits]⟩, ?_⟩
  · cases hpi2 : piCreate (piRequestOf getFractionDigits siteID order
        paymentInstrument pm.id) with
    | error e => simp [authorizeCreditCard, hAvail, hpm, hpi2, accCatch]
    | ok intent =>
      by_cases hst : intent.status = "succeeded" <;>
        simp [authorizeCreditCard, hAvail, hpm, hpi2, hst, accCatch]
  · intro value d n h
    have hhalf : ⌊(1 / 2 : ℚ)⌋ = 0 := by
      rw [Int.floor_eq_zero_iff]
      constructor <;> norm_num
    have h2 : minorUnits value d = n := by
      unfold minorUnits jsRound
      rw [h, Int.floor_int_add, hhalf, add_zero]
    refine ⟨h2, ?_⟩
    rw [h2, ← h]
    exact mul_div_cancel_right₀ value (pow_ne_zero d (by norm_num))

/-- Witness for C3: a two-decimal amount of 19.99 in a currency with two
fraction digits converts to 1999 minor units and round-trips. -/
theorem authorizeCreditCard_minor_units_witness :
    ((⟨⟨true, 1999 / 100, "USD"⟩, "4111111111111111", 1, 2030⟩ :
        OrderPaymentInstrument).amount.available = true ∧
      (∀ r, (fun _ => Except.ok (⟨"pm_2"⟩ : PaymentMethod) :
          PaymentMethodRequest → Except JsErr PaymentMethod) r =
        Except.ok (⟨"pm_2"⟩ : PaymentMethod)) ∧
      (1999 / 100 : ℚ) * 10 ^ 2 = ((1999 : ℤ) : ℚ)) ∧
    ((authorizeCreditCard (fun _ => 2) "site_1"
        (fun _ => Except.ok (⟨"pm_2"⟩ : PaymentMethod))
        (fun _ => Except.error ⟨"down", none⟩)
        ⟨⟨"c", "US", "l1", "94107", none, none, none⟩, none, "o_1", none, PayStatus.notPaid⟩
        ⟨⟨true, 1999 / 100, "USD"⟩, "4111111111111111", 1, 2030⟩ "123").piRequest =
      some (piRequestOf (fun _ => 2) "site_1"
        ⟨⟨"c", "US", "l1", "94107", none, none, none⟩, none, "o_1", none, PayStatus.notPaid⟩
        ⟨⟨true, 1999 / 100, "USD"⟩, "4111111111111111", 1, 2030⟩ "pm_2") ∧
      minorUnits (1999 / 100) 2 = 1999 ∧
      ((minorUnits (1999 / 100) 2 : ℚ) / 10 ^ 2 = (1999 / 100 : ℚ))) := by
  have hmain := authorizeCreditCard_minor_units (fun _ => 2) "site_1"
    (fun _ => Except.ok (⟨"pm_2"⟩ : PaymentMethod))
    (fun _ => Except.error ⟨"down", none⟩)
    ⟨⟨"c", "US", "l1", "94107", none, none, none⟩, none, "o_1", none, PayStatus.notPaid⟩
    ⟨⟨true, 1999 / 100, "USD"⟩, "4111111111111111", 1, 2030⟩ "123"
    ⟨"pm_2"⟩ rfl (fun _ => rfl)
  have hq : (1999 / 100 : ℚ) * 10 ^ 2 = ((1999 : ℤ) : ℚ) := by norm_num
  exact ⟨⟨rfl, fun _ => rfl, hq⟩,
    hmain.1.1, (hmain.2 (1999 / 100) 2 1999 hq).1, (hmain.2 (1999 / 100) 2 1999 hq).2⟩

/-- Witness for C8: the stub failure at a concrete order and
instrument. -/
theorem authorize_not_supported_witness :
    authorize
        ⟨⟨"c", "US", "l1", "94107", none, none, none⟩, none, "o_1", none, PayStatus.notPaid⟩
        ⟨⟨true, 5, "USD"⟩, "4111111111111111", 1, 2030⟩ =
      ⟨StatusCode.ERROR, some "Not supported"⟩ :=
  (authorize_not_supported
    ⟨⟨"c", "US", "l1", "94107", none, none, none⟩, none, "o_1", none, PayStatus.notPaid⟩
    ⟨⟨true, 5, "USD"⟩, "4111111111111111", 1, 2030⟩).1
